import Mathlib

/-
Verification of the Remini client (src/remini.py) against its design
specification.  The client code is embedded shallowly: each Python method
becomes a Lean function over an explicit environment that supplies the
HTTP responses the service would return, and each run produces a trace of
observable events (HTTP requests with their headers, token-file writes).
-/

set_option autoImplicit false

namespace Remini

/-- The synthetic device identifiers generated once per client instance
by the module-level device-id generator. -/
structure DeviceIds where
  android_id : String
  aaid : String
  backup_persistent_id : String
  non_backup_persistent_id : String
  deriving DecidableEq, Repr

/-- Python truthiness of an optional string: absent and empty are falsy. -/
def truthy : Option String → Bool
  | none => false
  | some s => if s = "" then false else true

/-- Python truthiness of an optional header mapping: absent and empty are falsy. -/
def truthyHeaders : Option (List (String × String)) → Bool
  | none => false
  | some l => if l = [] then false else true

/-- The fixed Android headers built by the client constructor
(method _create_android_headers). -/
def androidHeaders (d : DeviceIds) : List (String × String) :=
  [("bsp-id", "com.bigwinepot.nwdn.international.android"),
   ("build-number", "202514479"),
   ("build-version", "3.7.1020"),
   ("country", "US"),
   ("device-manufacturer", "Samsung"),
   ("device-model", "SM-G998B"),
   ("device-type", "6.8"),
   ("language", "en"),
   ("locale", "en_US"),
   ("os-version", "33"),
   ("platform", "Android"),
   ("timezone", "America/New_York"),
   ("android-id", d.android_id),
   ("aaid", d.aaid),
   ("accept-encoding", "gzip"),
   ("user-agent", "okhttp/4.12.0")]

/-- Headers produced by _get_common_headers: the Android base headers,
plus the identity token when one is held (Python truthiness), plus an
optional content type. -/
def getCommonHeaders (d : DeviceIds) (token : Option String)
    (contentType : Option String) : List (String × String) :=
  androidHeaders d
    ++ (if truthy token then [("identity-token", token.getD "")] else [])
    ++ (match contentType with
        | some ct => [("content-type", ct)]
        | none => [])

/-- The possible states of the token-cache file, as distinguished by
_load_identity_token: missing, unreadable (IOError on open/read),
syntactically invalid JSON, valid JSON that is not an object, or a JSON
object of string fields. -/
inductive FileState where
  | absent
  | unreadable
  | malformedJson
  | jsonNonObject
  | jsonObject (fields : List (String × String))
  deriving DecidableEq, Repr

/-- First-match lookup in a JSON object's fields (dict .get). -/
def lookupField : List (String × String) → String → Option String
  | [], _ => none
  | (k, v) :: rest, key => if k = key then some v else lookupField rest key

/-- _load_identity_token: if the file exists, try to parse it as JSON and
read the identity_token field; JSON decode errors and IO errors reset the
held token to nothing; an absent file leaves the held token unchanged.
A file holding valid JSON that is not an object makes the untyped
field access raise an uncaught AttributeError, modelled as an error. -/
def loadIdentityToken : FileState → Option String → Except String (Option String)
  | FileState.absent, cur => Except.ok cur
  | FileState.unreadable, _ => Except.ok none
  | FileState.malformedJson, _ => Except.ok none
  | FileState.jsonNonObject, _ => Except.error "AttributeError"
  | FileState.jsonObject fields, _ => Except.ok (lookupField fields "identity_token")

/-- The feature payload sent with task creation and reprocessing:
either the plain enhance payload or the stylization payload carrying the
pipeline ids. -/
inductive Feature where
  | enhanceFeat
  | stylizationV2 (pipelineIds : List String)
  deriving DecidableEq, Repr

/-- Observable events of a client run: each HTTP request with its headers,
and each write of the token-cache file. -/
inductive Event where
  | profileReq (headers : List (String × String))
  | setupReq (headers : List (String × String))
  | createTaskReq (headers : List (String × String)) (feature : Feature)
  | gcsPut (url : String) (headers : List (String × String))
  | pingReq (taskId : String) (headers : List (String × String))
  | statusReq (taskId : String) (headers : List (String × String))
  | reprocessReq (taskId : String) (feature : Feature) (headers : List (String × String))
  | downloadReq (url : String) (dest : String)
  | tokenWrite (token : String)
  deriving DecidableEq, Repr

/-- The distinct failure exits of the client.  In the Python source all of
these except fileNotFound and attributeError are raised as ReminiError;
they are distinguished here by raise site, matching the specification's
error taxonomy. -/
inductive Err where
  | attributeError
  | fileNotFound
  | setupHttpError
  | setupTokenMissing
  | authFailed
  | createTaskHttpError
  | createTaskMissingFields
  | uploadFailed
  | pingFailed
  | pollHttpFailed
  | taskFailed
  | reprocessHttpError
  | reprocessNoTaskId
  | baseTaskNoUrl
  | noFinalUrl
  | downloadFailed
  deriving DecidableEq, Repr

/-- Result of a terminating sub-operation: a value or an error, each with
the trace of events the operation emitted. -/
inductive Res (α : Type) where
  | ok (a : α) (tr : List Event)
  | err (e : Err) (tr : List Event)
  deriving DecidableEq, Repr

/-- The event trace of a sub-operation result. -/
def Res.trace {α : Type} : Res α → List Event
  | Res.ok _ tr => tr
  | Res.err _ tr => tr

/-- The error kind of a sub-operation result, if it failed. -/
def Res.errKind {α : Type} : Res α → Option Err
  | Res.ok _ _ => none
  | Res.err e _ => some e

/-- The body of one 2xx status response, as consumed by the poller:
the status field, the list of result outputs (each reduced to its url
field), and the errors field. -/
structure TaskData where
  status : Option String
  outputs : Option (List (Option String))
  errors : Option String
  deriving DecidableEq, Repr

/-- One HTTP response observed by the polling loop: a 404, another
non-2xx error, or a 2xx response with a JSON body. -/
inductive PollResp where
  | notFound
  | httpError
  | okResp (data : TaskData)
  deriving DecidableEq, Repr

/-- The task-creation response fields consumed by _create_image_task. -/
structure CreateResp where
  httpOk : Bool
  task_id : Option String
  upload_url : Option String
  upload_headers : Option (List (String × String))
  deriving DecidableEq, Repr

/-- The environment of one client run: the state of the local filesystem
and every response the remote service returns, in the order the client
asks for them. -/
structure Env where
  inputExists : Bool
  fileSize : Nat
  tokenFile : FileState
  probeOk : Nat → Bool
  setupHttpOk : Bool
  setupToken : Option String
  installTs : String
  createResp : CreateResp
  uploadOk : Bool
  pingOk : Bool
  pollBase : List PollResp
  reprocHttpOk : Bool
  reprocTaskId : Option String
  pollReproc : List PollResp
  downloadOk : Bool
  timestamp : String

/-- The extra headers _get_setup adds on top of the common headers. -/
def setupExtraHeaders (d : DeviceIds) (env : Env) : List (String × String) :=
  [("first-install-timestamp", env.installTs),
   ("backup-persistent-id", d.backup_persistent_id),
   ("non-backup-persistent-id", d.non_backup_persistent_id),
   ("environment", "Production"),
   ("settings-response-version", "v2"),
   ("is-app-running-in-background", "false"),
   ("is-old-user", "true"),
   ("app-set-id", "d44bd45a-a45d-4470-9674-7348a8e3fb71")]

/-- _save_identity_token: writes the token file only when a token is held
(Python truthiness); returns the new file state and the write event. -/
def saveIdentityToken (tok : Option String) (fs : FileState) :
    FileState × List Event :=
  if truthy tok then
    (FileState.jsonObject [("identity_token", tok.getD "")],
     [Event.tokenWrite (tok.getD "")])
  else (fs, [])

/-- The bootstrap phase of _login: _get_setup followed by the re-probe.
The setup request is built from the common headers for the currently held
token (tokCur) plus the setup extras; on a 2xx response carrying a token
the client stores and persists it, then probes the profile once with the
new token.  probeIdx counts the profile requests already issued, selecting
which probe answer the environment gives next. -/
def loginSetupPhase (d : DeviceIds) (env : Env) (tokCur : Option String)
    (tr : List Event) (probeIdx : Nat) : Res (Option String × FileState) :=
  let evS := Event.setupReq (getCommonHeaders d tokCur none ++ setupExtraHeaders d env)
  if env.setupHttpOk = false then Res.err Err.setupHttpError (tr ++ [evS])
  else if truthy env.setupToken = false then
    Res.err Err.setupTokenMissing (tr ++ [evS])
  else
    let t := env.setupToken.getD ""
    let fs1 := FileState.jsonObject [("identity_token", t)]
    let evW := Event.tokenWrite t
    let evP := Event.profileReq (getCommonHeaders d (some t) none)
    if env.probeOk probeIdx then Res.ok (some t, fs1) (tr ++ [evS, evW, evP])
    else Res.err Err.authFailed (tr ++ [evS, evW, evP])

/-- _login: load the cached token; if one is held and the profile probe
succeeds, return with no further requests; otherwise run the bootstrap
phase.  The returned value is the token now held and the final state of
the token file. -/
def login (d : DeviceIds) (env : Env) (fs0 : FileState) (tok0 : Option String) :
    Res (Option String × FileState) :=
  match loadIdentityToken fs0 tok0 with
  | Except.error _ => Res.err Err.attributeError []
  | Except.ok tok1 =>
    if truthy tok1 then
      let ev1 := Event.profileReq (getCommonHeaders d tok1 none)
      if env.probeOk 0 then Res.ok (tok1, fs0) [ev1]
      else loginSetupPhase d env tok1 [ev1] 1
    else loginSetupPhase d env tok1 [] 0

/-- Result of the polling loop: the output url it returned, the error it
raised, or divergence when the supplied response sequence is exhausted
without a terminal response (the Python loop would keep polling forever);
each with the trace of status requests issued. -/
inductive PollRes where
  | ok (url : Option String) (tr : List Event)
  | err (e : Err) (tr : List Event)
  | diverge (tr : List Event)
  deriving DecidableEq, Repr

/-- Prepend one event to the trace of a polling result. -/
def PollRes.consEv : PollRes → Event → PollRes
  | PollRes.ok u tr, e => PollRes.ok u (e :: tr)
  | PollRes.err er tr, e => PollRes.err er (e :: tr)
  | PollRes.diverge tr, e => PollRes.diverge (e :: tr)

/-- The trace of a polling result. -/
def PollRes.trace : PollRes → List Event
  | PollRes.ok _ tr => tr
  | PollRes.err _ tr => tr
  | PollRes.diverge tr => tr

/-- Output-url extraction on a completed status body: the first output's
url if the outputs list is non-empty and that url is truthy, else nothing. -/
def extractUrl (data : TaskData) : Option String :=
  match data.outputs with
  | some (some u :: _) => if u = "" then none else some u
  | _ => none

/-- The status request event of one polling iteration. -/
def statusEv (d : DeviceIds) (tok : Option String) (taskId : String) : Event :=
  Event.statusReq taskId (getCommonHeaders d tok none)

/-- _poll_status_http over the environment's response sequence: a 404
continues the loop; another non-2xx raises; a 2xx with status completed
returns the extracted url; status failed or error raises; any other
status continues. -/
def pollStatus (d : DeviceIds) (tok : Option String) (taskId : String) :
    List PollResp → PollRes
  | [] => PollRes.diverge []
  | PollResp.notFound :: rest =>
    (pollStatus d tok taskId rest).consEv (statusEv d tok taskId)
  | PollResp.httpError :: _ => PollRes.err Err.pollHttpFailed [statusEv d tok taskId]
  | PollResp.okResp data :: rest =>
    if data.status = some "completed" then
      PollRes.ok (extractUrl data) [statusEv d tok taskId]
    else if data.status = some "failed" ∨ data.status = some "error" then
      PollRes.err Err.taskFailed [statusEv d tok taskId]
    else (pollStatus d tok taskId rest).consEv (statusEv d tok taskId)

/-- _create_image_task followed by _upload_file_to_gcs: POST the creation
request; on a non-2xx raise; if any of task_id, upload_url, upload_headers
is missing or falsy raise; otherwise PUT the file bytes to the upload url
with the supplied headers plus Content-Length and User-Agent. -/
def createImageTask (d : DeviceIds) (tok : Option String) (feat : Feature)
    (env : Env) : Res String :=
  let ev := Event.createTaskReq
    (getCommonHeaders d tok (some "application/json; charset=UTF-8")) feat
  if env.createResp.httpOk = false then Res.err Err.createTaskHttpError [ev]
  else if (truthy env.createResp.task_id && truthy env.createResp.upload_url
      && truthyHeaders env.createResp.upload_headers) = false then
    Res.err Err.createTaskMissingFields [ev]
  else
    let ev2 := Event.gcsPut (env.createResp.upload_url.getD "")
      ((env.createResp.upload_headers.getD [])
        ++ [("Content-Length", toString env.fileSize), ("User-Agent", "okhttp/4.12.0")])
    if env.uploadOk then Res.ok (env.createResp.task_id.getD "") [ev, ev2]
    else Res.err Err.uploadFailed [ev, ev2]

/-- _ping_for_processing: POST to the process endpoint with the common
headers plus a zero content-length. -/
def pingForProcessing (d : DeviceIds) (tok : Option String) (taskId : String)
    (env : Env) : Res Unit :=
  let ev := Event.pingReq taskId (getCommonHeaders d tok none ++ [("content-length", "0")])
  if env.pingOk then Res.ok () [ev] else Res.err Err.pingFailed [ev]

/-- _reprocess_image_task: POST the feature payload to the reprocess
endpoint of the base task; a non-2xx raises, a response without a new
task id raises. -/
def reprocessImageTask (d : DeviceIds) (tok : Option String) (baseTaskId : String)
    (feat : Feature) (env : Env) : Res String :=
  let ev := Event.reprocessReq baseTaskId feat
    (getCommonHeaders d tok (some "application/json; charset=UTF-8"))
  if env.reprocHttpOk = false then Res.err Err.reprocessHttpError [ev]
  else if truthy env.reprocTaskId = false then Res.err Err.reprocessNoTaskId [ev]
  else Res.ok (env.reprocTaskId.getD "") [ev]

/-- The characters after the last slash of a character list. -/
def basenameChars : List Char → List Char → List Char
  | [], acc => acc.reverse
  | c :: rest, acc =>
    if c = '/' then basenameChars rest [] else basenameChars rest (c :: acc)

/-- os.path.basename for POSIX paths: the part after the last slash. -/
def basename (p : String) : String :=
  String.mk (basenameChars p.data [])

/-- os.path.splitext on a bare file name: split at the last dot, unless
every character before that dot is itself a dot (leading dots do not
start an extension). -/
def splitext (s : String) : String × String :=
  let rev := s.data.reverse
  match rev.dropWhile (fun c => c ≠ '.') with
  | [] => (s, "")
  | _ :: pre =>
    if pre.all (fun c => c = '.') then (s, "")
    else (String.mk pre.reverse,
          String.mk ('.' :: (rev.takeWhile (fun c => c ≠ '.')).reverse))

/-- The default destination path derived by _process_common when the
caller gives none: name_remini_timestamp plus the original extension,
in the current working directory. -/
def defaultOutputPath (imagePath : String) (timestamp : String) : String :=
  let ne := splitext (basename imagePath)
  ne.1 ++ "_remini_" ++ timestamp ++ ne.2

/-- _process_common: fail when no final url was produced; derive the
destination path when none was given; stream the artifact to it. -/
def processCommon (_d : DeviceIds) (env : Env) (imagePath : String)
    (outputPath : Option String) (finalUrl : Option String) : Res Unit :=
  if truthy finalUrl = false then Res.err Err.noFinalUrl []
  else
    let dest := if truthy outputPath then outputPath.getD ""
                else defaultOutputPath imagePath env.timestamp
    let ev := Event.downloadReq (finalUrl.getD "") dest
    if env.downloadOk then Res.ok () [ev] else Res.err Err.downloadFailed [ev]

/-- Outcome of a whole workflow run: normal return, an exception, or
divergence inside the polling loop; each with the full event trace. -/
inductive Run where
  | ok (tr : List Event)
  | err (e : Err) (tr : List Event)
  | diverge (tr : List Event)
  deriving DecidableEq, Repr

/-- The event trace of a workflow run. -/
def Run.trace : Run → List Event
  | Run.ok tr => tr
  | Run.err _ tr => tr
  | Run.diverge tr => tr

/-- The error kind of a workflow run, if it raised. -/
def Run.errKind : Run → Option Err
  | Run.ok _ => none
  | Run.err e _ => some e
  | Run.diverge _ => none

/-- Whether a workflow run returned normally. -/
def Run.isOk : Run → Bool
  | Run.ok _ => true
  | _ => false

/-- The process workflow: existence check on the input path, login,
task creation and upload with the enhance feature, processing ping,
polling, then download via _process_common. -/
def process (d : DeviceIds) (env : Env) (imagePath : String)
    (outputPath : Option String) (tok0 : Option String) : Run :=
  if env.inputExists = false then Run.err Err.fileNotFound []
  else
    match login d env env.tokenFile tok0 with
    | Res.err e tr => Run.err e tr
    | Res.ok (tok, _) tr1 =>
      match createImageTask d tok Feature.enhanceFeat env with
      | Res.err e tr2 => Run.err e (tr1 ++ tr2)
      | Res.ok taskId tr2 =>
        match pingForProcessing d tok taskId env with
        | Res.err e tr3 => Run.err e (tr1 ++ tr2 ++ tr3)
        | Res.ok _ tr3 =>
          match pollStatus d tok taskId env.pollBase with
          | PollRes.diverge tr4 => Run.diverge (tr1 ++ tr2 ++ tr3 ++ tr4)
          | PollRes.err e tr4 => Run.err e (tr1 ++ tr2 ++ tr3 ++ tr4)
          | PollRes.ok url tr4 =>
            match processCommon d env imagePath outputPath url with
            | Res.err e tr5 => Run.err e (tr1 ++ tr2 ++ tr3 ++ tr4 ++ tr5)
            | Res.ok _ tr5 => Run.ok (tr1 ++ tr2 ++ tr3 ++ tr4 ++ tr5)

/-- The stylize workflow: existence check, login, base task creation with
the enhance feature, ping, base polling; the base task must yield an
output url, else the run raises; then reprocess with the stylization
feature built from the caller's style id, poll the new task, download. -/
def stylize (d : DeviceIds) (env : Env) (imagePath : String) (style : String)
    (outputPath : Option String) (tok0 : Option String) : Run :=
  if env.inputExists = false then Run.err Err.fileNotFound []
  else
    match login d env env.tokenFile tok0 with
    | Res.err e tr => Run.err e tr
    | Res.ok (tok, _) tr1 =>
      match createImageTask d tok Feature.enhanceFeat env with
      | Res.err e tr2 => Run.err e (tr1 ++ tr2)
      | Res.ok baseId tr2 =>
        match pingForProcessing d tok baseId env with
        | Res.err e tr3 => Run.err e (tr1 ++ tr2 ++ tr3)
        | Res.ok _ tr3 =>
          match pollStatus d tok baseId env.pollBase with
          | PollRes.diverge tr4 => Run.diverge (tr1 ++ tr2 ++ tr3 ++ tr4)
          | PollRes.err e tr4 => Run.err e (tr1 ++ tr2 ++ tr3 ++ tr4)
          | PollRes.ok baseUrl tr4 =>
            if truthy baseUrl = false then
              Run.err Err.baseTaskNoUrl (tr1 ++ tr2 ++ tr3 ++ tr4)
            else
              match reprocessImageTask d tok baseId
                  (Feature.stylizationV2 [style]) env with
              | Res.err e tr5 => Run.err e (tr1 ++ tr2 ++ tr3 ++ tr4 ++ tr5)
              | Res.ok newId tr5 =>
                match pollStatus d tok newId env.pollReproc with
                | PollRes.diverge tr6 =>
                  Run.diverge (tr1 ++ tr2 ++ tr3 ++ tr4 ++ tr5 ++ tr6)
                | PollRes.err e tr6 =>
                  Run.err e (tr1 ++ tr2 ++ tr3 ++ tr4 ++ tr5 ++ tr6)
                | PollRes.ok url tr6 =>
                  match processCommon d env imagePath outputPath url with
                  | Res.err e tr7 =>
                    Run.err e (tr1 ++ tr2 ++ tr3 ++ tr4 ++ tr5 ++ tr6 ++ tr7)
                  | Res.ok _ tr7 =>
                    Run.ok (tr1 ++ tr2 ++ tr3 ++ tr4 ++ tr5 ++ tr6 ++ tr7)

/-- Recognize a setup (bootstrap) request event. -/
def isSetupReq : Event → Bool
  | Event.setupReq _ => true
  | _ => false

/-- Recognize a profile-probe request event. -/
def isProfileReq : Event → Bool
  | Event.profileReq _ => true
  | _ => false

/-- Recognize a reprocess request event. -/
def isReprocessReq : Event → Bool
  | Event.reprocessReq _ _ _ => true
  | _ => false

/-- Recognize a storage PUT (upload) event. -/
def isGcsPut : Event → Bool
  | Event.gcsPut _ _ => true
  | _ => false

/-- Recognize a token-file write event. -/
def isTokenWrite : Event → Bool
  | Event.tokenWrite _ => true
  | _ => false

/-- Recognize a reprocess request on a given base task with a given
feature payload. -/
def isReprocessWith (baseTaskId : String) (feat : Feature) : Event → Bool
  | Event.reprocessReq id2 f2 _ => id2 == baseTaskId && f2 == feat
  | _ => false

/-- Recognize a request event that carries a given identity token in its
headers. -/
def carriesToken (t : String) (e : Event) : Bool :=
  match e with
  | Event.profileReq hs => hs.contains ("identity-token", t)
  | Event.setupReq hs => hs.contains ("identity-token", t)
  | Event.createTaskReq hs _ => hs.contains ("identity-token", t)
  | Event.pingReq _ hs => hs.contains ("identity-token", t)
  | Event.statusReq _ hs => hs.contains ("identity-token", t)
  | Event.reprocessReq _ _ hs => hs.contains ("identity-token", t)
  | _ => false

/-- Recognize a download event to a given destination path. -/
def isDownloadTo (dest : String) : Event → Bool
  | Event.downloadReq _ d2 => d2 == dest
  | _ => false

/-- Number of setup requests in a trace. -/
def countSetup (tr : List Event) : Nat := tr.countP isSetupReq

/-- Number of profile-probe requests issued strictly after the first
setup request of a trace. -/
def profileReqsAfterSetup (tr : List Event) : Nat :=
  ((tr.dropWhile (fun e => !(isSetupReq e))).drop 1).countP isProfileReq

/-- A status response whose status field is completed. -/
def respCompleted : PollResp → Bool
  | PollResp.okResp dt => decide (dt.status = some "completed")
  | _ => false

/-- A status response whose status field is failed or error. -/
def respFailedOrError : PollResp → Bool
  | PollResp.okResp dt =>
    decide (dt.status = some "failed" ∨ dt.status = some "error")
  | _ => false

/-- A concrete device-identity set used by the concrete runs below. -/
def d0 : DeviceIds :=
  { android_id := "0123456789abcdef"
    aaid := "11111111-2222-3333-4444-555555555555"
    backup_persistent_id := "0123456789abcdef_com.bigwinepot.nwdn.international"
    non_backup_persistent_id := "66666666-7777-8888-9999-000000000000" }

/-- A fully successful environment: a valid cached token, every request
answered 2xx, both polls completing with an output url. -/
def baseEnv : Env :=
  { inputExists := true
    fileSize := 100
    tokenFile := FileState.jsonObject [("identity_token", "tok0")]
    probeOk := fun _ => true
    setupHttpOk := true
    setupToken := some "newtok"
    installTs := "1700000000E9"
    createResp :=
      { httpOk := true
        task_id := some "b1"
        upload_url := some "https://gcs.example/u1"
        upload_headers := some [("x-goog-meta", "1")] }
    uploadOk := true
    pingOk := true
    pollBase := [PollResp.okResp
      { status := some "completed"
        outputs := some [some "https://x/base.jpg"]
        errors := none }]
    reprocHttpOk := true
    reprocTaskId := some "r1"
    pollReproc := [PollResp.okResp
      { status := some "completed"
        outputs := some [some "https://x/out.jpg"]
        errors := none }]
    downloadOk := true
    timestamp := "20240101_120000" }

/-- An environment whose cached token is stale: every profile probe is
refused, while the bootstrap succeeds and supplies a fresh token. -/
def staleTokenEnv : Env :=
  { baseEnv with
      tokenFile := FileState.jsonObject [("identity_token", "staletok")]
      probeOk := fun _ => false }

/-- An environment whose cached token is stale and whose bootstrap
request itself fails with a non-2xx response. -/
def setupDownEnv : Env :=
  { baseEnv with
      tokenFile := FileState.jsonObject [("identity_token", "staletok")]
      probeOk := fun _ => false
      setupHttpOk := false }

/-- An environment whose base task completes without any output url. -/
def noUrlEnv : Env :=
  { baseEnv with
      pollBase := [PollResp.okResp
        { status := some "completed", outputs := none, errors := none }] }

/-- An environment where the input image path does not exist. -/
def noFileEnv : Env := { baseEnv with inputExists := false }

/-- An environment whose task-creation response lacks the task_id field. -/
def noTaskIdEnv : Env :=
  { baseEnv with
      createResp :=
        { httpOk := true
          task_id := none
          upload_url := some "https://gcs.example/u1"
          upload_headers := some [("x-goog-meta", "1")] } }

/-- A status body still in progress, used by concrete polling runs. -/
def procData : TaskData :=
  { status := some "processing", outputs := none, errors := none }

/-- A completed status body with an output url, used by concrete runs. -/
def compData : TaskData :=
  { status := some "completed", outputs := some [some "https://x/o.jpg"], errors := none }

/-- A failed status body, used by concrete polling runs. -/
def failData : TaskData :=
  { status := some "failed", outputs := none, errors := some "boom" }

/-- The polling loop yields an output value only if some observed
response had status completed. -/
theorem pollStatus_ok_completed (d : DeviceIds) (tok : Option String) (tid : String) :
    ∀ (rs : List PollResp) (url : Option String) (tr : List Event),
      pollStatus d tok tid rs = PollRes.ok url tr → rs.any respCompleted = true := by
  intro rs
  induction rs with
  | nil => intro url tr h; simp [pollStatus] at h
  | cons r rest ih =>
    intro url tr h
    cases r with
    | notFound =>
      simp only [pollStatus] at h
      cases hp : pollStatus d tok tid rest with
      | ok u tr1 =>
        simp only [List.any_cons, Bool.or_eq_true]
        exact Or.inr (ih u tr1 hp)
      | err e tr1 => rw [hp] at h; simp [PollRes.consEv] at h
      | diverge tr1 => rw [hp] at h; simp [PollRes.consEv] at h
    | httpError => simp [pollStatus] at h
    | okResp data =>
      simp only [pollStatus] at h
      by_cases hc : data.status = some "completed"
      · simp [List.any_cons, respCompleted, hc]
      · rw [if_neg hc] at h
        by_cases hf : data.status = some "failed" ∨ data.status = some "error"
        · rw [if_pos hf] at h; simp at h
        · rw [if_neg hf] at h
          cases hp : pollStatus d tok tid rest with
          | ok u tr1 =>
            simp only [List.any_cons, Bool.or_eq_true]
            exact Or.inr (ih u tr1 hp)
          | err e tr1 => rw [hp] at h; simp [PollRes.consEv] at h
          | diverge tr1 => rw [hp] at h; simp [PollRes.consEv] at h

/-- The polling loop raises TaskFailedError only if some observed
response had status failed or error. -/
theorem pollStatus_err_failed (d : DeviceIds) (tok : Option String) (tid : String) :
    ∀ (rs : List PollResp) (tr : List Event),
      pollStatus d tok tid rs = PollRes.err Err.taskFailed tr →
        rs.any respFailedOrError = true := by
  intro rs
  induction rs with
  | nil => intro tr h; simp [pollStatus] at h
  | cons r rest ih =>
    intro tr h
    cases r with
    | notFound =>
      simp only [pollStatus] at h
      cases hp : pollStatus d tok tid rest with
      | ok u tr1 => rw [hp] at h; simp [PollRes.consEv] at h
      | err e tr1 =>
        rw [hp] at h
        simp only [PollRes.consEv, PollRes.err.injEq] at h
        simp only [List.any_cons, Bool.or_eq_true]
        exact Or.inr (ih tr1 (h.1 ▸ hp))
      | diverge tr1 => rw [hp] at h; simp [PollRes.consEv] at h
    | httpError => simp [pollStatus] at h
    | okResp data =>
      simp only [pollStatus] at h
      by_cases hc : data.status = some "completed"
      · rw [if_pos hc] at h; simp at h
      · rw [if_neg hc] at h
        by_cases hf : data.status = some "failed" ∨ data.status = some "error"
        · simp [List.any_cons, respFailedOrError, hf]
        · rw [if_neg hf] at h
          cases hp : pollStatus d tok tid rest with
          | ok u tr1 => rw [hp] at h; simp [PollRes.consEv] at h
          | err e tr1 =>
            rw [hp] at h
            simp only [PollRes.consEv, PollRes.err.injEq] at h
            simp only [List.any_cons, Bool.or_eq_true]
            exact Or.inr (ih tr1 (h.1 ▸ hp))
          | diverge tr1 => rw [hp] at h; simp [PollRes.consEv] at h

/-- C2: the polling loop returns an output value only after observing a
response whose status field is completed; it raises TaskFailedError only
after observing one whose status is failed or error; a 404 response
continues the loop, and so does a 2xx response whose status field is any
string other than completed, failed or error, each emitting exactly the
one status request of that iteration. -/
theorem c2_poll_terminal :
    (∀ (d : DeviceIds) (tok : Option String) (tid : String) (rs : List PollResp)
        (url : Option String) (tr : List Event),
        pollStatus d tok tid rs = PollRes.ok url tr → rs.any respCompleted = true) ∧
    (∀ (d : DeviceIds) (tok : Option String) (tid : String) (rs : List PollResp)
        (tr : List Event),
        pollStatus d tok tid rs = PollRes.err Err.taskFailed tr →
          rs.any respFailedOrError = true) ∧
    (∀ (d : DeviceIds) (tok : Option String) (tid : String) (rest : List PollResp),
        pollStatus d tok tid (PollResp.notFound :: rest) =
          (pollStatus d tok tid rest).consEv (statusEv d tok tid)) ∧
    (∀ (d : DeviceIds) (tok : Option String) (tid : String) (data : TaskData)
        (rest : List PollResp),
        data.status ≠ some "completed" → data.status ≠ some "failed" →
        data.status ≠ some "error" →
        pollStatus d tok tid (PollResp.okResp data :: rest) =
          (pollStatus d tok tid rest).consEv (statusEv d tok tid)) := by
  refine ⟨pollStatus_ok_completed, pollStatus_err_failed, fun _ _ _ _ => rfl, ?_⟩
  intro d tok tid data rest h1 h2 h3
  simp only [pollStatus]
  rw [if_neg h1, if_neg (fun hc => hc.elim h2 h3)]

/-- C2 witness: the four parts evaluated on concrete response sequences. -/
theorem c2_witness :
    [PollResp.notFound, PollResp.okResp procData, PollResp.okResp compData].any
      respCompleted = true ∧
    [PollResp.okResp failData].any respFailedOrError = true ∧
    pollStatus d0 (some "tok0") "b1" (PollResp.notFound :: [PollResp.okResp compData]) =
      (pollStatus d0 (some "tok0") "b1" [PollResp.okResp compData]).consEv
        (statusEv d0 (some "tok0") "b1") ∧
    pollStatus d0 (some "tok0") "b1" (PollResp.okResp procData :: [PollResp.okResp compData]) =
      (pollStatus d0 (some "tok0") "b1" [PollResp.okResp compData]).consEv
        (statusEv d0 (some "tok0") "b1") :=
  ⟨c2_poll_terminal.1 d0 (some "tok0") "b1" _ _ _ rfl,
   c2_poll_terminal.2.1 d0 (some "tok0") "b1" _ _ rfl,
   c2_poll_terminal.2.2.1 d0 (some "tok0") "b1" _,
   c2_poll_terminal.2.2.2 d0 (some "tok0") "b1" procData _
     (by decide) (by decide) (by decide)⟩

/-- C3 counterexample: in the concrete run where the cached token fails
the probe and the bootstrap request then fails with a non-2xx response,
login raises after one bootstrap request and zero re-probes, so the
claimed bootstrap-followed-by-exactly-one-re-probe sequence does not
happen in every such run. -/
theorem c3_counterexample :
    loadIdentityToken setupDownEnv.tokenFile none = Except.ok (some "staletok") ∧
    setupDownEnv.probeOk 0 = false ∧
    (login d0 setupDownEnv setupDownEnv.tokenFile none).errKind
      = some Err.setupHttpError ∧
    countSetup (login d0 setupDownEnv setupDownEnv.tokenFile none).trace = 1 ∧
    profileReqsAfterSetup (login d0 setupDownEnv setupDownEnv.tokenFile none).trace
      = 0 :=
  ⟨rfl, rfl, rfl, rfl, rfl⟩

/-- C3 amended: whenever the cached token is missing or fails the probe,
login performs exactly one bootstrap request and at most one re-probe; as
soon as the bootstrap succeeds and yields a token, exactly one re-probe
follows, and if that re-probe fails login raises ReminiError; if the
bootstrap itself fails login raises with no re-probe.  The bootstrap is
never retried. -/
theorem c3_amended (d : DeviceIds) (env : Env) (fs : FileState) (lt : Option String)
    (hload : loadIdentityToken fs none = Except.ok lt)
    (hbad : truthy lt = false ∨ env.probeOk 0 = false) :
    countSetup (login d env fs none).trace = 1 ∧
    profileReqsAfterSetup (login d env fs none).trace ≤ 1 ∧
    (env.setupHttpOk = true → truthy env.setupToken = true →
      profileReqsAfterSetup (login d env fs none).trace = 1) ∧
    (env.setupHttpOk = true → truthy env.setupToken = true →
      env.probeOk (if truthy lt then 1 else 0) = false →
      (login d env fs none).errKind = some Err.authFailed) := by
  have hp0 : truthy lt = true → env.probeOk 0 = false := by
    intro h
    rcases hbad with hb | hb
    · rw [h] at hb; exact absurd hb (by simp)
    · exact hb
  have hlogin : login d env fs none =
      loginSetupPhase d env lt
        (if truthy lt then [Event.profileReq (getCommonHeaders d lt none)] else [])
        (if truthy lt then 1 else 0) := by
    unfold login
    rw [hload]
    cases hT : truthy lt with
    | false => simp [hT]
    | true => simp [hT, hp0 hT]
  rw [hlogin]
  unfold loginSetupPhase
  cases hS : env.setupHttpOk with
  | false =>
    refine ⟨?_, ?_, ?_, ?_⟩
    · cases hT : truthy lt <;>
        simp [countSetup, Res.trace, isSetupReq]
    · cases hT : truthy lt <;>
        simp [profileReqsAfterSetup, Res.trace, isSetupReq, isProfileReq]
    · intro h; exact absurd h (by simp [hS])
    · intro h; exact absurd h (by simp [hS])
  | true =>
    cases hTk : truthy env.setupToken with
    | false =>
      refine ⟨?_, ?_, ?_, ?_⟩
      · cases hT : truthy lt <;>
          simp [hTk, countSetup, Res.trace, isSetupReq]
      · cases hT : truthy lt <;>
          simp [hTk, profileReqsAfterSetup, Res.trace, isSetupReq, isProfileReq]
      · intro _ h; exact absurd h (by simp [hTk])
      · intro _ h; exact absurd h (by simp [hTk])
    | true =>
      refine ⟨?_, ?_, ?_, ?_⟩
      · cases hT : truthy lt <;> cases hP : env.probeOk (if truthy lt then 1 else 0) <;>
          simp_all [countSetup, Res.trace, isSetupReq]
      · cases hT : truthy lt <;> cases hP : env.probeOk (if truthy lt then 1 else 0) <;>
          simp_all [profileReqsAfterSetup, Res.trace, isSetupReq, isProfileReq]
      · intro _ _
        cases hT : truthy lt <;> cases hP : env.probeOk (if truthy lt then 1 else 0) <;>
          simp_all [profileReqsAfterSetup, Res.trace, isSetupReq, isProfileReq]
      · cases hT : truthy lt
        · intro _ _ h3
          simp only [Bool.false_eq_true, if_false] at h3
          simp [hTk, h3, Res.errKind]
        · intro _ _ h3
          simp only [if_true] at h3
          simp [hTk, h3, Res.errKind]

/-- C3 witness: the amended statement evaluated on the concrete
stale-token run whose bootstrap succeeds and whose re-probe fails. -/
theorem c3_witness :
    countSetup (login d0 staleTokenEnv staleTokenEnv.tokenFile none).trace = 1 ∧
    profileReqsAfterSetup (login d0 staleTokenEnv staleTokenEnv.tokenFile none).trace
      ≤ 1 ∧
    (staleTokenEnv.setupHttpOk = true → truthy staleTokenEnv.setupToken = true →
      profileReqsAfterSetup
        (login d0 staleTokenEnv staleTokenEnv.tokenFile none).trace = 1) ∧
    (staleTokenEnv.setupHttpOk = true → truthy staleTokenEnv.setupToken = true →
      staleTokenEnv.probeOk (if truthy (some "staletok") then 1 else 0) = false →
      (login d0 staleTokenEnv staleTokenEnv.tokenFile none).errKind
        = some Err.authFailed) :=
  c3_amended d0 staleTokenEnv staleTokenEnv.tokenFile (some "staletok")
    rfl (Or.inr rfl)

/-- C4: whenever the 2xx task-creation response lacks any of the fields
task_id, upload_url or upload_headers, task creation raises ReminiError
and its whole trace is the single creation request: the storage PUT is
never issued.  Moreover, in any environment at all, a storage PUT event
in the trace of task creation implies all three fields were present and
truthy. -/
theorem c4_no_upload_on_missing_fields (d : DeviceIds) (tok : Option String)
    (feat : Feature) :
    (∀ env : Env, env.createResp.httpOk = true →
      (env.createResp.task_id = none ∨ env.createResp.upload_url = none ∨
        env.createResp.upload_headers = none) →
      createImageTask d tok feat env =
        Res.err Err.createTaskMissingFields
          [Event.createTaskReq
            (getCommonHeaders d tok (some "application/json; charset=UTF-8")) feat]) ∧
    (∀ env : Env,
      ((createImageTask d tok feat env).trace.any isGcsPut) = true →
      truthy env.createResp.task_id = true ∧
      truthy env.createResp.upload_url = true ∧
      truthyHeaders env.createResp.upload_headers = true) := by
  constructor
  · intro env hhttp hmiss
    unfold createImageTask
    rw [hhttp]
    have hfalse : (truthy env.createResp.task_id && truthy env.createResp.upload_url
        && truthyHeaders env.createResp.upload_headers) = false := by
      rcases hmiss with h | h | h <;> simp [h, truthy, truthyHeaders]
    simp [hfalse]
  · intro env h
    unfold createImageTask at h
    by_cases hhttp : env.createResp.httpOk = false
    · rw [if_pos hhttp] at h
      simp [Res.trace, isGcsPut] at h
    · rw [if_neg hhttp] at h
      by_cases hall : (truthy env.createResp.task_id && truthy env.createResp.upload_url
          && truthyHeaders env.createResp.upload_headers) = false
      · rw [if_pos hall] at h
        simp [Res.trace, isGcsPut] at h
      · have := Bool.eq_true_of_not_eq_false hall
        simp only [Bool.and_eq_true] at this
        exact ⟨this.1.1, this.1.2, this.2⟩

/-- C4 witness: the concrete creation response lacking task_id. -/
theorem c4_witness :
    createImageTask d0 (some "tok0") Feature.enhanceFeat noTaskIdEnv =
      Res.err Err.createTaskMissingFields
        [Event.createTaskReq
          (getCommonHeaders d0 (some "tok0") (some "application/json; charset=UTF-8"))
          Feature.enhanceFeat] :=
  (c4_no_upload_on_missing_fields d0 (some "tok0") Feature.enhanceFeat).1
    noTaskIdEnv rfl (Or.inl rfl)

/-- C6: a token written by the persistence step (_save_identity_token)
and reloaded by the load step (_load_identity_token) yields the identical
token value, for every non-empty token, whatever the previous file state
and previously held token. -/
theorem c6_token_roundtrip (t : String) (fs : FileState) (cur : Option String)
    (h : t ≠ "") :
    loadIdentityToken (saveIdentityToken (some t) fs).1 cur = Except.ok (some t) := by
  simp [saveIdentityToken, truthy, h, loadIdentityToken, lookupField]

/-- C6 witness: the round trip evaluated on a concrete token. -/
theorem c6_witness :
    loadIdentityToken (saveIdentityToken (some "tok123") FileState.absent).1 none
      = Except.ok (some "tok123") :=
  c6_token_roundtrip "tok123" FileState.absent none (by decide)

/-- C9: an unreadable token file or one holding malformed JSON never
raises and resets the held token to nothing; an absent file never raises
and leaves the held token unchanged, hence nothing on a freshly
constructed client, whose held token starts as none. -/
theorem c9_load_nonfatal :
    (∀ cur : Option String,
        loadIdentityToken FileState.unreadable cur = Except.ok none) ∧
    (∀ cur : Option String,
        loadIdentityToken FileState.malformedJson cur = Except.ok none) ∧
    (∀ cur : Option String,
        loadIdentityToken FileState.absent cur = Except.ok cur) ∧
    loadIdentityToken FileState.absent none = Except.ok none :=
  ⟨fun _ => rfl, fun _ => rfl, fun _ => rfl, rfl⟩

/-- C10: when the input path does not exist, both public workflows raise
FileNotFoundError with an empty event trace: no authentication, no HTTP
request and no token-file write has happened. -/
theorem c10_missing_input (d : DeviceIds) (env : Env) (imagePath style : String)
    (outPath tok0 : Option String) (h : env.inputExists = false) :
    process d env imagePath outPath tok0 = Run.err Err.fileNotFound [] ∧
    stylize d env imagePath style outPath tok0 = Run.err Err.fileNotFound [] := by
  refine ⟨?_, ?_⟩ <;> simp [process, stylize, h]

/-- C10 witness: both workflows on a concrete run with a missing input. -/
theorem c10_witness :
    process d0 noFileEnv "missing.jpg" none none = Run.err Err.fileNotFound [] ∧
    stylize d0 noFileEnv "missing.jpg" "toon" none none
      = Run.err Err.fileNotFound [] :=
  c10_missing_input d0 noFileEnv "missing.jpg" "toon" none none rfl

/-- C7: with a cached token that is present and whose profile probe
succeeds, login issues exactly one request (the probe), returns that
token and leaves the token file untouched: its whole trace is the single
probe request. -/
theorem c7_single_probe (d : DeviceIds) (env : Env) (fs : FileState) (t : String)
    (hload : loadIdentityToken fs none = Except.ok (some t)) (ht : t ≠ "")
    (hprobe : env.probeOk 0 = true) :
    login d env fs none =
      Res.ok (some t, fs) [Event.profileReq (getCommonHeaders d (some t) none)] := by
  unfold login
  rw [hload]
  simp [truthy, ht, hprobe]

/-- C7 witness: a concrete run with a valid cached token. -/
theorem c7_witness :
    login d0 baseEnv baseEnv.tokenFile none =
      Res.ok (some "tok0", baseEnv.tokenFile)
        [Event.profileReq (getCommonHeaders d0 (some "tok0") none)] :=
  c7_single_probe d0 baseEnv baseEnv.tokenFile "tok0" rfl (by decide) rfl

/-- C1 counterexample: in the concrete run whose cached token staletok
fails the profile probe, the very next request, the bootstrap setup
request, still carries header identity-token staletok; the claim that no
request after the failed probe carries the failed token is false. -/
theorem c1_counterexample :
    loadIdentityToken staleTokenEnv.tokenFile none = Except.ok (some "staletok") ∧
    staleTokenEnv.probeOk 0 = false ∧
    (login d0 staleTokenEnv staleTokenEnv.tokenFile none).trace.any
      (fun e => isSetupReq e && carriesToken "staletok" e) = true :=
  ⟨rfl, rfl, rfl⟩

/-- C1 amended: when the loaded token fails the probe, the token is not
discarded before the bootstrap: the setup request still carries it in its
identity-token header; it is replaced only once the setup response
supplies a new token, so the re-probe that follows carries the new token
and, when the two differ, no longer the failed one. -/
theorem c1_amended (d : DeviceIds) (env : Env) (fs : FileState) (t t2 : String)
    (hload : loadIdentityToken fs none = Except.ok (some t)) (ht : t ≠ "")
    (hprobe : env.probeOk 0 = false)
    (hsetup : env.setupHttpOk = true) (htok : env.setupToken = some t2)
    (ht2 : t2 ≠ "") :
    (login d env fs none).trace =
      [Event.profileReq (getCommonHeaders d (some t) none),
       Event.setupReq (getCommonHeaders d (some t) none ++ setupExtraHeaders d env),
       Event.tokenWrite t2,
       Event.profileReq (getCommonHeaders d (some t2) none)] ∧
    ("identity-token", t) ∈ getCommonHeaders d (some t) none ++ setupExtraHeaders d env ∧
    (t ≠ t2 → ("identity-token", t) ∉ getCommonHeaders d (some t2) none) := by
  refine ⟨?_, ?_, ?_⟩
  · unfold login
    rw [hload]
    simp only [truthy, ht, if_false, if_true]
    unfold loginSetupPhase
    rw [hsetup, htok]
    simp only [truthy, ht2, if_false, if_true]
    cases hp : env.probeOk 1 <;> simp [Res.trace, hprobe]
  · simp [getCommonHeaders, truthy, ht]
  · intro hne
    simp [getCommonHeaders, androidHeaders, truthy, ht2, hne]

/-- C1 witness: the amended statement evaluated on the concrete stale
token run. -/
theorem c1_witness :
    (login d0 staleTokenEnv staleTokenEnv.tokenFile none).trace =
      [Event.profileReq (getCommonHeaders d0 (some "staletok") none),
       Event.setupReq (getCommonHeaders d0 (some "staletok") none
         ++ setupExtraHeaders d0 staleTokenEnv),
       Event.tokenWrite "newtok",
       Event.profileReq (getCommonHeaders d0 (some "newtok") none)] ∧
    ("identity-token", "staletok") ∈ getCommonHeaders d0 (some "staletok") none
      ++ setupExtraHeaders d0 staleTokenEnv ∧
    ("staletok" ≠ "newtok" →
      ("identity-token", "staletok") ∉ getCommonHeaders d0 (some "newtok") none) :=
  c1_amended d0 staleTokenEnv staleTokenEnv.tokenFile "staletok" "newtok"
    rfl (by decide) rfl rfl rfl (by decide)

/-- C8 counterexample: in the concrete successful enhance run with no
output path given, the artifact is downloaded to
photo_remini_20240101_120000.jpg; no download goes to the
photo_enhanced_20240101_120000.jpg name the claim derives. -/
theorem c8_counterexample :
    (process d0 baseEnv "photo.jpg" none none).isOk = true ∧
    (process d0 baseEnv "photo.jpg" none none).trace.any
      (isDownloadTo "photo_remini_20240101_120000.jpg") = true ∧
    (process d0 baseEnv "photo.jpg" none none).trace.any
      (isDownloadTo "photo_enhanced_20240101_120000.jpg") = false :=
  ⟨rfl, rfl, rfl⟩

/-- C8 amended: when the caller leaves the output path unspecified and a
final url was produced, the download step targets the path
stem ++ _remini_ ++ timestamp ++ extension, where stem and extension are
split from the basename of the input image path; the path is relative,
hence in the current working directory. -/
theorem c8_amended (d : DeviceIds) (env : Env) (imagePath url : String)
    (hurl : url ≠ "") :
    (processCommon d env imagePath none (some url)).trace =
      [Event.downloadReq url
        ((splitext (basename imagePath)).1 ++ "_remini_" ++ env.timestamp
          ++ (splitext (basename imagePath)).2)] := by
  unfold processCommon
  simp only [truthy, hurl, if_false, if_true, Option.getD]
  cases hD : env.downloadOk <;>
    simp [hD, Res.trace, truthy, defaultOutputPath]

/-- C8 witness: the amended derivation evaluated on a concrete path. -/
theorem c8_witness :
    (processCommon d0 baseEnv "dir/photo.jpg" none (some "https://x/o.jpg")).trace =
      [Event.downloadReq "https://x/o.jpg"
        ((splitext (basename "dir/photo.jpg")).1 ++ "_remini_" ++ baseEnv.timestamp
          ++ (splitext (basename "dir/photo.jpg")).2)] :=
  c8_amended d0 baseEnv "dir/photo.jpg" "https://x/o.jpg" (by decide)

/-- The bootstrap phase emits only setup, token-write and profile events
on top of its prefix: no reprocess request. -/
theorem loginSetupPhase_no_reproc (d : DeviceIds) (env : Env)
    (tokCur : Option String) (pre : List Event) (k : Nat)
    (hpre : pre.any isReprocessReq = false) :
    ((loginSetupPhase d env tokCur pre k).trace).any isReprocessReq = false := by
  unfold loginSetupPhase
  cases hS : env.setupHttpOk <;> cases hTk : truthy env.setupToken <;>
    cases hP : env.probeOk k <;>
      simp [hS, hTk, hP, Res.trace, List.any_append, hpre, isReprocessReq]

/-- login never issues a reprocess request. -/
theorem login_no_reproc (d : DeviceIds) (env : Env) (fs : FileState)
    (t0 : Option String) :
    ((login d env fs t0).trace).any isReprocessReq = false := by
  unfold login
  cases hl : loadIdentityToken fs t0 with
  | error e => simp [Res.trace]
  | ok tok1 =>
    cases hT : truthy tok1 with
    | false =>
      simp only [hT, Bool.false_eq_true, if_false]
      exact loginSetupPhase_no_reproc d env tok1 [] 0 (by simp)
    | true =>
      cases hP : env.probeOk 0 with
      | true => simp [hT, hP, Res.trace, isReprocessReq]
      | false =>
        simp only [hT, hP, if_true, Bool.false_eq_true, if_false]
        exact loginSetupPhase_no_reproc d env tok1
          [Event.profileReq (getCommonHeaders d tok1 none)] 1
          (by simp [isReprocessReq])

/-- Task creation and upload never issue a reprocess request. -/
theorem createImageTask_no_reproc (d : DeviceIds) (tok : Option String)
    (feat : Feature) (env : Env) :
    ((createImageTask d tok feat env).trace).any isReprocessReq = false := by
  unfold createImageTask
  split
  · simp [Res.trace, isReprocessReq]
  · split
    · simp [Res.trace, isReprocessReq]
    · split <;> simp [Res.trace, isReprocessReq]

/-- The processing ping never issues a reprocess request. -/
theorem ping_no_reproc (d : DeviceIds) (tok : Option String) (tid : String)
    (env : Env) :
    ((pingForProcessing d tok tid env).trace).any isReprocessReq = false := by
  unfold pingForProcessing
  split <;> simp [Res.trace, isReprocessReq]

/-- The polling loop only issues status requests: never a reprocess
request. -/
theorem pollStatus_no_reproc (d : DeviceIds) (tok : Option String) (tid : String) :
    ∀ rs : List PollResp,
      ((pollStatus d tok tid rs).trace).any isReprocessReq = false := by
  intro rs
  induction rs with
  | nil => simp [pollStatus, PollRes.trace]
  | cons r rest ih =>
    cases r with
    | notFound =>
      simp only [pollStatus]
      cases hp : pollStatus d tok tid rest <;>
        simp_all [PollRes.consEv, PollRes.trace, statusEv, isReprocessReq]
    | httpError => simp [pollStatus, PollRes.trace, statusEv, isReprocessReq]
    | okResp data =>
      simp only [pollStatus]
      split
      · simp [PollRes.trace, statusEv, isReprocessReq]
      · split
        · simp [PollRes.trace, statusEv, isReprocessReq]
        · cases hp : pollStatus d tok tid rest <;>
            simp_all [PollRes.consEv, PollRes.trace, statusEv, isReprocessReq]

/-- The reprocess operation always emits its reprocess request, on the
given base task with the given feature payload, whatever the response. -/
theorem reprocess_ev_in_trace (d : DeviceIds) (tok : Option String) (bid : String)
    (feat : Feature) (env : Env) :
    ((reprocessImageTask d tok bid feat env).trace).any
      (isReprocessWith bid feat) = true := by
  unfold reprocessImageTask
  split
  · simp [Res.trace, isReprocessWith]
  · split <;> simp [Res.trace, isReprocessWith]

/-- C5: in every stylize run that reaches a completed base poll, if the
base poll yielded an output url the run issues a reprocess request on the
base task id whose feature payload is the stylization payload carrying
exactly the caller's style id; if the base poll yielded no output url the
run raises ReminiError with a trace containing no reprocess request at
all. -/
theorem c5_stylize_reprocess (d : DeviceIds) (env : Env) (imagePath style : String)
    (outPath tok0 : Option String) (tok : Option String) (fs1 : FileState)
    (trL trC trP : List Event) (baseId : String)
    (hex : env.inputExists = true)
    (hl : login d env env.tokenFile tok0 = Res.ok (tok, fs1) trL)
    (hc : createImageTask d tok Feature.enhanceFeat env = Res.ok baseId trC)
    (hp : pingForProcessing d tok baseId env = Res.ok () trP) :
    (∀ (u : String) (trB : List Event),
      pollStatus d tok baseId env.pollBase = PollRes.ok (some u) trB → u ≠ "" →
      (stylize d env imagePath style outPath tok0).trace.any
        (isReprocessWith baseId (Feature.stylizationV2 [style])) = true) ∧
    (∀ trB : List Event,
      pollStatus d tok baseId env.pollBase = PollRes.ok none trB →
      stylize d env imagePath style outPath tok0 =
        Run.err Err.baseTaskNoUrl (trL ++ trC ++ trP ++ trB) ∧
      (trL ++ trC ++ trP ++ trB).any isReprocessReq = false) := by
  constructor
  · intro u trB hpoll hu
    have hRt : ∀ e trR,
        reprocessImageTask d tok baseId (Feature.stylizationV2 [style]) env
          = Res.err e trR →
        trR.any (isReprocessWith baseId (Feature.stylizationV2 [style])) = true := by
      intro e trR hR
      have h2 := reprocess_ev_in_trace d tok baseId (Feature.stylizationV2 [style]) env
      rw [hR] at h2
      simpa [Res.trace] using h2
    have hRt2 : ∀ nid trR,
        reprocessImageTask d tok baseId (Feature.stylizationV2 [style]) env
          = Res.ok nid trR →
        trR.any (isReprocessWith baseId (Feature.stylizationV2 [style])) = true := by
      intro nid trR hR
      have h2 := reprocess_ev_in_trace d tok baseId (Feature.stylizationV2 [style]) env
      rw [hR] at h2
      simpa [Res.trace] using h2
    unfold stylize
    simp only [hex, Bool.true_eq_false, if_false, hl, hc, hp, hpoll]
    simp only [truthy, hu, if_false, Bool.true_eq_false]
    cases hR : reprocessImageTask d tok baseId (Feature.stylizationV2 [style]) env with
    | err e trR =>
      simp [Run.trace, List.any_append, hRt e trR hR]
    | ok nid trR =>
      cases hp2 : pollStatus d tok nid env.pollReproc with
      | diverge tr6 => simp [Run.trace, List.any_append, hp2, hRt2 nid trR hR]
      | err e2 tr6 => simp [Run.trace, List.any_append, hp2, hRt2 nid trR hR]
      | ok u2 tr6 =>
        cases hpc : processCommon d env imagePath outPath u2 with
        | err e3 tr7 =>
          simp [Run.trace, List.any_append, hp2, hpc, hRt2 nid trR hR]
        | ok a tr7 =>
          simp [Run.trace, List.any_append, hp2, hpc, hRt2 nid trR hR]
  · intro trB hpoll
    have h1 : trL.any isReprocessReq = false := by
      have h := login_no_reproc d env env.tokenFile tok0
      rw [hl] at h
      simpa [Res.trace] using h
    have h2 : trC.any isReprocessReq = false := by
      have h := createImageTask_no_reproc d tok Feature.enhanceFeat env
      rw [hc] at h
      simpa [Res.trace] using h
    have h3 : trP.any isReprocessReq = false := by
      have h := ping_no_reproc d tok baseId env
      rw [hp] at h
      simpa [Res.trace] using h
    have h4 : trB.any isReprocessReq = false := by
      have h := pollStatus_no_reproc d tok baseId env.pollBase
      rw [hpoll] at h
      simpa [PollRes.trace] using h
    constructor
    · unfold stylize
      simp only [hex, Bool.true_eq_false, if_false, hl, hc, hp, hpoll]
      simp [truthy]
    · simp [List.any_append, h1, h2, h3, h4]

/-- C5 witness: the concrete completed base task with an output url
leads to a reprocess request carrying the caller's style id; the
concrete completed base task without an output url raises, with no
reprocess request in its trace. -/
theorem c5_witness :
    (stylize d0 baseEnv "photo.jpg" "toon" none none).trace.any
      (isReprocessWith "b1" (Feature.stylizationV2 ["toon"])) = true ∧
    (stylize d0 noUrlEnv "photo.jpg" "toon" none none).errKind
      = some Err.baseTaskNoUrl ∧
    (stylize d0 noUrlEnv "photo.jpg" "toon" none none).trace.any
      isReprocessReq = false := by
  refine ⟨?_, ?_, ?_⟩
  · exact (c5_stylize_reprocess d0 baseEnv "photo.jpg" "toon" none none
      (some "tok0") _ _ _ _ "b1" rfl rfl rfl rfl).1
      "https://x/base.jpg" _ rfl (by decide)
  · have h := (c5_stylize_reprocess d0 noUrlEnv "photo.jpg" "toon" none none
      (some "tok0") _ _ _ _ "b1" rfl rfl rfl rfl).2 _ rfl
    rw [h.1]
    rfl
  · have h := (c5_stylize_reprocess d0 noUrlEnv "photo.jpg" "toon" none none
      (some "tok0") _ _ _ _ "b1" rfl rfl rfl rfl).2 _ rfl
    rw [h.1]
    simpa [Run.trace] using h.2

end Remini
